import Mathlib

/-!
Verification of the fake-commerce-api data-access layer.

This file shallowly embeds the core of the repository:
  - the error taxonomy of `src/errors.js` (`ClientError`, `ServerError`);
  - the query builders of `src/db/rawDbFunctions.js` (`rawGetData`,
    `rawInsertData`, `rawUpdateData`, `rawToggleColumn`, `rawDeleteById`),
    modelled as pure functions from their inputs to the pair
    (SQL text, bound values) or a thrown error;
  - the error classifier `parseSqliteError` with its regex patterns,
    modelled by explicit left-to-right scanners over the message text;
  - the transaction wrapper `withSimulatedTransaction` of
    `src/decoratores.js`, modelled both as an outcome/trace function over
    an environment describing the driver's failures and as a state
    machine over an abstract persisted store;
  - the resource-operation bodies of the db-functions module
    (`updateData`, `toggleBooleanField`, `createPurchase`).

JavaScript numbers appearing in purchase arithmetic are idealised as
exact rationals; `Number.prototype.toFixed(2)` is modelled as rounding
to two decimals with ties away from zero.
-/

/-- A JavaScript value as it can appear as a bound query parameter or
filter value: the builders never inspect values beyond `Array.isArray`. -/
inductive Value where
  | vNull : Value
  | vInt (n : Int) : Value
  | vStr (s : String) : Value
  | vBool (b : Bool) : Value
  | vArr (elems : List Value) : Value
deriving Repr

/-- Array.isArray. -/
def Value.isArr : Value → Bool
  | .vArr _ => true
  | _ => false

/-- The error values thrown by the layer, from `src/errors.js` plus the
two kinds of plain JavaScript errors that can cross it: a generic error
carrying a message (e.g. a sqlite engine error) and a `ReferenceError`
raised when an identifier that is not in scope is evaluated. -/
inductive JsErr where
  | clientError (message : String) (raw : Option String) : JsErr
  | serverError (message : String) (raw : Option String) : JsErr
  | jsError (message : String) : JsErr
  | refError (name : String) : JsErr
deriving Repr, DecidableEq

/-- The `.message` property of the corresponding JavaScript error object. -/
def JsErr.message : JsErr → String
  | .clientError m _ => m
  | .serverError m _ => m
  | .jsError m => m
  | .refError n => n ++ " is not defined"

/-- The `err instanceof ClientError` test. -/
def JsErr.isClientError : JsErr → Bool
  | .clientError _ _ => true
  | _ => false

/-- The `raw` diagnostic carried by an application error (`null` when
absent, and absent on plain JavaScript errors). -/
def JsErr.raw : JsErr → Option String
  | .clientError _ r => r
  | .serverError _ r => r
  | .jsError _ => none
  | .refError _ => none

/-- Character class of the JavaScript regex token `\w`:
ASCII letters, digits and underscore. -/
def isWordChar (c : Char) : Bool :=
  c.isAlphanum || c = '_'

/-- Consume the literal `lit` from the front of `s`, returning the rest,
or `none` when `s` does not start with `lit`. -/
def dropLit : List Char → List Char → Option (List Char)
  | [], rest => some rest
  | _ :: _, [] => none
  | c :: cs, d :: ds => if c = d then dropLit cs ds else none

/-- Greedily take the maximal (possibly empty) run of `\w` characters. -/
def takeWord : List Char → List Char × List Char
  | [] => ([], [])
  | c :: cs =>
    if isWordChar c then
      let (w, r) := takeWord cs
      (c :: w, r)
    else ([], c :: cs)

/-- Match `lit` followed by `(\w+)\.(\w+)` at the current position,
returning the two captured words. -/
def matchPairAt (lit s : List Char) : Option (String × String) :=
  match dropLit lit s with
  | none => none
  | some r1 =>
    let (w1, r2) := takeWord r1
    if w1.isEmpty then none
    else
      match r2 with
      | '.' :: r3 =>
        let (w2, _) := takeWord r3
        if w2.isEmpty then none else some (String.mk w1, String.mk w2)
      | _ => none

/-- First match, scanning positions left to right, of the JavaScript
regex `lit(\w+)\.(\w+)` — as used by the unique- and not-null-constraint
patterns of `parseSqliteError`. -/
def scanPair (lit : List Char) : List Char → Option (String × String)
  | [] => none
  | c :: tl =>
    match matchPairAt lit (c :: tl) with
    | some r => some r
    | none => scanPair lit tl

/-- Match `lit` followed by `(\w+)` at the current position. -/
def matchWordAt (lit s : List Char) : Option String :=
  match dropLit lit s with
  | none => none
  | some r1 =>
    let (w1, _) := takeWord r1
    if w1.isEmpty then none else some (String.mk w1)

/-- First match, scanning positions left to right, of the JavaScript
regex `lit(\w+)` — as used by the single-capture patterns of
`parseSqliteError`. -/
def scanWord (lit : List Char) : List Char → Option String
  | [] => none
  | c :: tl =>
    match matchWordAt lit (c :: tl) with
    | some r => some r
    | none => scanWord lit tl

/-- The `String.prototype.includes` test for a literal substring. -/
def containsLit (lit : List Char) : List Char → Bool
  | [] => (dropLit lit []).isSome
  | c :: tl => (dropLit lit (c :: tl)).isSome || containsLit lit tl

/-- The classifier `parseSqliteError` of `src/db/rawDbFunctions.js`:
matches the engine message against its fixed pattern cascade,
first-match-wins, and returns a `ClientError` whose `raw` diagnostic is
the original message. -/
def parseSqliteError (msg : String) : JsErr :=
  match scanPair "UNIQUE constraint failed: ".toList msg.toList with
  | some (table, column) =>
    .clientError ("The value for column '" ++ column ++ "' in table '" ++
      table ++ "' already exists and must be unique.") (some msg)
  | none =>
  match scanPair "NOT NULL constraint failed: ".toList msg.toList with
  | some (table, column) =>
    .clientError ("The column '" ++ column ++ "' in table '" ++ table ++
      "' is required and cannot be null.") (some msg)
  | none =>
  match scanWord "no such column: ".toList msg.toList with
  | some column =>
    .clientError ("The column '" ++ column ++ "' does not exist in the table.")
      (some msg)
  | none =>
  if containsLit "datatype mismatch".toList msg.toList then
    .clientError ("Invalid data type for one or more columns. " ++
      "Please check that the types match the table schema.") (some msg)
  else
  match scanWord "CHECK constraint failed: ".toList msg.toList with
  | some column =>
    .clientError ("The column '" ++ column ++
      "' does not satisfy the validation constraint.") (some msg)
  | none =>
  if containsLit "FOREIGN KEY constraint failed".toList msg.toList then
    .clientError ("Foreign key constraint failed: one of the referenced " ++
      "values does not exist in the related table.") (some msg)
  else
  match scanWord "no such table: ".toList msg.toList with
  | some table =>
    .clientError ("The table '" ++ table ++ "' does not exist in the database.")
      (some msg)
  | none =>
  .clientError "Error with database" (some msg)

/-- The sanitizer of `src/db/rawDbFunctions.js`: returns `*` unchanged,
otherwise strips single quotes, double quotes and backticks (character
codes 39, 34 and 96) and wraps the result in double quotes. -/
def sanitizeIdentifier (name : String) : String :=
  if name = "*" then "*"
  else
    let cleaned := String.mk (name.toList.filter
      (fun c => !(c = Char.ofNat 39 || c = Char.ofNat 34 || c = Char.ofNat 96)))
    "\"" ++ cleaned ++ "\""

/-- The `validateString` guard: the argument must be a string whose
trimmed form is non-empty, i.e. it contains at least one non-whitespace
character (the non-string case is outside this typed model). -/
def validString (s : String) : Bool :=
  !(s.toList.all (fun c => c.isWhitespace))

/-- One element of the `filters` argument of `rawGetData` (named Filter in the source docs). -/
structure SqlFilter where
  column : String
  operator : String
  value : Value

/-- The operator whitelist of `rawGetData`. -/
def allowedOperators : List String :=
  ["=", "!=", "<", "<=", ">", ">=", "LIKE", "IN"]

/-- The WHERE fragment produced for one filter by the loop body of
`rawGetData`: `col IN (?, …)` when the operator is `IN` and the value is
an array, `col <op> ?` otherwise. -/
def filterClause (f : SqlFilter) : String :=
  match f.operator == "IN", f.value with
  | true, .vArr vs =>
    sanitizeIdentifier f.column ++ " IN (" ++
      String.intercalate ", " (vs.map (fun _ => "?")) ++ ")"
  | _, _ => sanitizeIdentifier f.column ++ " " ++ f.operator ++ " ?"

/-- The values pushed onto the bound-values list for one filter:
the spread array for an `IN`-with-array filter, the single value
otherwise. -/
def filterValues (f : SqlFilter) : List Value :=
  match f.operator == "IN", f.value with
  | true, .vArr vs => vs
  | _, _ => [f.value]

/-- The filter loop of `rawGetData`: walks the filters in order,
throwing `ClientError` at the first operator outside the whitelist, and
otherwise accumulating the WHERE fragments and bound values in order. -/
def buildFilters : List SqlFilter → Except JsErr (List String × List Value)
  | [] => .ok ([], [])
  | f :: rest =>
    if f.operator ∈ allowedOperators then
      match buildFilters rest with
      | .ok (cs, vs) => .ok (filterClause f :: cs, filterValues f ++ vs)
      | .error e => .error e
    else
      .error (.clientError ("Invalid operator '" ++ f.operator ++ "' in filter.") none)

/-- The SQL-building part of `rawGetData` (`src/db/rawDbFunctions.js`),
up to the point where the statement and its bound values are handed to
`db.all`: validates the table name, defaults the column list, sanitizes
the selected columns, builds the WHERE clause from the filters, and
appends the LIMIT clause when the limit is a positive integer. -/
def buildSelect (tableName : String) (columns : List String)
    (filters : List SqlFilter) (limit : Option Int) :
    Except JsErr (String × List Value) :=
  if !(validString tableName) then
    .error (.clientError "Invalid table name." none)
  else
    let columns := if columns.isEmpty then ["*"] else columns
    let columnsSql := String.intercalate ", " (columns.map sanitizeIdentifier)
    match buildFilters filters with
    | .error e => .error e
    | .ok (whereClauses, values) =>
      let sql := "SELECT " ++ columnsSql ++ " FROM " ++ tableName
      let sql :=
        if whereClauses.isEmpty then sql
        else sql ++ " WHERE " ++ String.intercalate " AND " whereClauses
      let sql :=
        match limit with
        | some l => if l > 0 then sql ++ " LIMIT " ++ toString l else sql
        | none => sql
      .ok (sql, values)

/-- The SQL-building part of `rawInsertData`: fails when the record has
no fields, otherwise interpolates the table name and the field names and
binds every field value as a `?` placeholder. -/
def buildInsert (tableName : String) (data : List (String × Value)) :
    Except JsErr (String × List Value) :=
  let keys := data.map Prod.fst
  let values := data.map Prod.snd
  if keys.isEmpty then
    .error (.clientError "No fields were passed to insert." none)
  else
    let placeholders := String.intercalate ", " (keys.map (fun _ => "?"))
    .ok ("INSERT INTO " ++ tableName ++ " (" ++ String.intercalate ", " keys ++
      ") VALUES (" ++ placeholders ++ ")", values)

/-- The SQL-building part of `rawUpdateData`: validates the table name,
fails when there is nothing to set, otherwise interpolates the table
name and the field names into the SET clause and binds every new value,
then the id, as `?` placeholders. -/
def buildUpdate (tableName : String) (id : Value)
    (newRow : List (String × Value)) : Except JsErr (String × List Value) :=
  if !(validString tableName) then
    .error (.clientError "Invalid table name." none)
  else
    let keys := newRow.map Prod.fst
    if keys.isEmpty then
      .error (.clientError "No data to update" none)
    else
      let setClause := String.intercalate ", " (keys.map (fun k => k ++ " = ?"))
      let values := newRow.map Prod.snd ++ [id]
      .ok ("UPDATE " ++ tableName ++ " SET " ++ setClause ++ " WHERE id = ?",
        values)

/-- The SQL-building part of `rawToggleColumn`: validates the table and
column names, sanitizes the column, interpolates the table name raw, and
binds the id. -/
def buildToggle (tableName : String) (id : Value) (columnName : String) :
    Except JsErr (String × List Value) :=
  if !(validString tableName) then
    .error (.clientError "Invalid table name." none)
  else if !(validString columnName) then
    .error (.clientError "Invalid column name." none)
  else
    .ok ("\n    UPDATE " ++ tableName ++ "\n    SET " ++
      sanitizeIdentifier columnName ++ " = CASE " ++
      sanitizeIdentifier columnName ++
      " WHEN 1 THEN 0 ELSE 1 END\n    WHERE id = ?\n  ", [id])

/-- The SQL-building part of `rawDeleteById`: validates the table name,
interpolates it raw, and binds the id. -/
def buildDelete (tableName : String) (id : Value) :
    Except JsErr (String × List Value) :=
  if !(validString tableName) then
    .error (.clientError "Invalid table name." none)
  else
    .ok ("DELETE FROM " ++ tableName ++ " WHERE id = ?", [id])

/-- The commands issued through `db.run` by the transaction wrapper. -/
inductive DbCmd where
  | beginTx : DbCmd
  | rollback : DbCmd
deriving Repr, DecidableEq

/-- Environment describing how the storage driver behaves during one
call of the wrapper: whether `openDb()` fails, whether
`db.run('BEGIN TRANSACTION')` fails, and the outcome of the i-th
`db.run('ROLLBACK')` attempt (`none` = success, `some m` = the engine
raises an error with message `m`). -/
structure TxEnv where
  openErr : Option String
  beginErr : Option String
  rbErr : Nat → Option String

/-- Result of one wrapper call: the value returned or error thrown to
the caller, together with the trace of transaction-control commands
issued through `db.run`, in order. -/
structure TxOutcome (α : Type) where
  result : Except JsErr α
  trace : List DbCmd
deriving Repr

/-- The outer catch block of `withSimulatedTransaction` after any
rollback handling: a `ClientError` is re-thrown unchanged, anything
else is wrapped into `ServerError('Internal server error', err.message)`. -/
def handleCaught {α : Type} (e : JsErr) : Except JsErr α :=
  if e.isClientError then .error e
  else .error (.serverError "Internal server error" (some e.message))

/-- The wrapper `withSimulatedTransaction` of `src/decoratores.js`,
as a function of the driver environment and the unit of work's outcome
`fnRes`. The module does not import `parseSqliteError` (it requires only
`openDb`, `ClientError` and `ServerError`), so both
`throw parseSqliteError(rollbackErr)` sites raise
`ReferenceError: parseSqliteError is not defined` when reached:
  - `openDb()` fails: `db` is undefined, so the catch block skips the
    rollback and wraps the raised engine error;
  - `BEGIN` fails: the catch block retries `ROLLBACK` (attempt 0); if
    that attempt fails, evaluating `parseSqliteError` raises a
    `ReferenceError` out of the call;
  - the unit of work returns: `ROLLBACK` (attempt 0) is issued; if it
    fails, the `ReferenceError` from the inner catch propagates to the
    outer catch, which issues `ROLLBACK` again (attempt 1) and then
    either wraps the `ReferenceError` (attempt 1 succeeded) or raises a
    fresh `ReferenceError` (attempt 1 failed);
  - the unit of work throws: the catch block issues `ROLLBACK`
    (attempt 0) and, when it succeeds, re-throws a `ClientError`
    unchanged and wraps anything else. -/
def runSimulated {α : Type} (env : TxEnv) (fnRes : Except JsErr α) :
    TxOutcome α :=
  match env.openErr with
  | some m => ⟨handleCaught (.jsError m), []⟩
  | none =>
    match env.beginErr with
    | some m =>
      match env.rbErr 0 with
      | none => ⟨handleCaught (.jsError m), [.beginTx, .rollback]⟩
      | some _ => ⟨.error (.refError "parseSqliteError"), [.beginTx, .rollback]⟩
    | none =>
      match fnRes with
      | .ok a =>
        match env.rbErr 0 with
        | none => ⟨.ok a, [.beginTx, .rollback]⟩
        | some _ =>
          match env.rbErr 1 with
          | none =>
            ⟨handleCaught (.refError "parseSqliteError"),
              [.beginTx, .rollback, .rollback]⟩
          | some _ =>
            ⟨.error (.refError "parseSqliteError"),
              [.beginTx, .rollback, .rollback]⟩
      | .error e =>
        match env.rbErr 0 with
        | none => ⟨handleCaught e, [.beginTx, .rollback]⟩
        | some _ => ⟨.error (.refError "parseSqliteError"), [.beginTx, .rollback]⟩

/-- The storage engine's transaction state over an abstract persisted
store `σ`: the durable store plus the pending in-transaction copy. -/
structure DbState (σ : Type) where
  persisted : σ
  txn : Option σ

/-- A mutating statement: inside an open transaction it acts on the
pending copy; outside one it would autocommit against the store. -/
def applyMut {σ : Type} (f : σ → σ) (s : DbState σ) : DbState σ :=
  match s.txn with
  | some t => ⟨s.persisted, some (f t)⟩
  | none => ⟨f s.persisted, none⟩

/-- `BEGIN TRANSACTION`: opens a transaction over the current store. -/
def doBegin {σ : Type} (s : DbState σ) : DbState σ :=
  ⟨s.persisted, some s.persisted⟩

/-- `ROLLBACK`: discards the pending copy, leaving the store as it was. -/
def doRollback {σ : Type} (s : DbState σ) : DbState σ :=
  ⟨s.persisted, none⟩

/-- The state-level effect of one `withSimulatedTransaction` call whose
unit of work issues the mutating statements `muts`, in order, against
the connection it was handed: `BEGIN`, the mutations, `ROLLBACK`. -/
def runSimulatedState {σ : Type} (muts : List (σ → σ)) (s0 : σ) : DbState σ :=
  doRollback (muts.foldl (fun s f => applyMut f s) (doBegin ⟨s0, none⟩))

/-- The body of `updateData` as a function of the outcomes of its two
database calls: `changes` is the `ChangeCount` returned by
`rawUpdateData` and `reread` the rows the follow-up `rawGetData` would
return. The boolean records whether that re-read was performed. -/
def updateDataBody {ρ : Type} (changes : Nat) (reread : List ρ) :
    Except JsErr (Option ρ) × Bool :=
  if changes = 0 then
    (.error (.clientError "Element not found or nothing changed" none), false)
  else
    (.ok reread.head?, true)

/-- The body of `toggleBooleanField` as a function of the outcomes of
its two database calls, with the same re-read flag as `updateDataBody`. -/
def toggleBooleanFieldBody {ρ : Type} (changes : Nat) (reread : List ρ) :
    Except JsErr (Option ρ) × Bool :=
  if changes = 0 then
    (.error (.clientError "Record not found or no change applied" none), false)
  else
    (.ok reread.head?, true)

/-- One element of `purchaseData.products` in `createPurchase`. -/
structure PurchaseLine where
  product_id : Int
  quantity : ℚ
deriving Repr, DecidableEq

/-- A product row as read from the `products` table. -/
structure Product where
  id : Int
  price : ℚ
deriving Repr, DecidableEq

/-- A line item as accumulated into `purchaseItemsToInsert`. -/
structure PurchaseItemOut where
  product_id : Int
  quantity : ℚ
  price_at_time : ℚ
deriving Repr, DecidableEq

/-- `Number.prototype.toFixed(2)` followed by `parseFloat`, idealised on
exact rationals: round to two decimal places, ties away from zero. -/
def round2 (q : ℚ) : ℚ :=
  (if q < 0 then -⌊-q * 100 + 1 / 2⌋ else ⌊q * 100 + 1 / 2⌋ : ℤ) / 100

/-- The pricing loop of `createPurchase`: walks the input lines in
order, looks each line's product up with `products.find(...)`, snapshots
`price_at_time` from the product's current price, and accumulates the
running total. Returns `none` when a referenced product is absent (the
source then crashes reading `.price` of `undefined`). -/
def createPurchaseLoop (products : List Product) :
    List PurchaseLine → ℚ → List PurchaseItemOut →
    Option (ℚ × List PurchaseItemOut)
  | [], total, acc => some (round2 total, acc)
  | l :: rest, total, acc =>
    match products.find? (fun p => p.id == l.product_id) with
    | none => none
    | some pd =>
      createPurchaseLoop products rest (total + pd.price * l.quantity)
        (acc ++ [⟨l.product_id, l.quantity, pd.price⟩])

/-- The computational core of `createPurchase`: from the fetched product
rows and the requested lines, the rounded total inserted into the
`purchases` row (and hence carried by the re-read purchase returned to
the caller) and the line items bulk-inserted into `purchase_items`. -/
def createPurchaseCore (products : List Product) (lines : List PurchaseLine) :
    Option (ℚ × List PurchaseItemOut) :=
  createPurchaseLoop products lines 0 []

/-! Helper lemmas shared by the claim theorems. -/

lemma map_const_q {α : Type} (vs : List α) :
    vs.map (fun _ => "?") = List.replicate vs.length "?" := by
  induction vs with
  | nil => rfl
  | cons v tl ih => simp [List.replicate, ih]

lemma filterClause_in_arr (col : String) (vs : List Value) :
    filterClause ⟨col, "IN", .vArr vs⟩ =
      sanitizeIdentifier col ++ " IN (" ++
        String.intercalate ", " (List.replicate vs.length "?") ++ ")" := by
  simp [filterClause, map_const_q]

lemma filterValues_in_arr (col : String) (vs : List Value) :
    filterValues ⟨col, "IN", .vArr vs⟩ = vs := rfl

lemma filterClause_plain (col op : String) (v : Value)
    (h : op ≠ "IN" ∨ v.isArr = false) :
    filterClause ⟨col, op, v⟩ = sanitizeIdentifier col ++ " " ++ op ++ " ?" := by
  rcases h with h | h
  · have hb : (op == "IN") = false := by simpa using h
    simp [filterClause, hb]
  · cases v <;> simp_all [filterClause, Value.isArr]

lemma filterValues_plain (col op : String) (v : Value)
    (h : op ≠ "IN" ∨ v.isArr = false) :
    filterValues ⟨col, op, v⟩ = [v] := by
  rcases h with h | h
  · have hb : (op == "IN") = false := by simpa using h
    simp [filterValues, hb]
  · cases v <;> simp_all [filterValues, Value.isArr]

lemma buildFilters_first_invalid :
    ∀ (filters : List SqlFilter) (f : SqlFilter), f ∈ filters →
      f.operator ∉ allowedOperators →
      ∃ op, op ∉ allowedOperators ∧
        buildFilters filters =
          .error (.clientError ("Invalid operator '" ++ op ++ "' in filter.") none)
  | [], f, hf, _ => absurd hf (List.not_mem_nil f)
  | g :: rest, f, hf, hop => by
    by_cases hg : g.operator ∈ allowedOperators
    · have hfr : f ∈ rest := by
        rcases List.mem_cons.mp hf with h | h
        · subst h; exact absurd hg hop
        · exact h
      obtain ⟨op, hop', herr⟩ := buildFilters_first_invalid rest f hfr hop
      exact ⟨op, hop', by simp [buildFilters, hg, herr]⟩
    · exact ⟨g.operator, hg, by simp [buildFilters, hg]⟩

/-- C4: the error classifier matches its patterns first-match-wins; in
particular every message matching the unique-constraint pattern
classifies as the unique-constraint `ClientError` (never the generic
fallback), and every branch carries the original engine message as its
`raw` diagnostic. -/
theorem parseSqliteError_unique_precedence_and_raw (msg : String) :
    (parseSqliteError msg).raw = some msg ∧
    (∀ t c,
      scanPair "UNIQUE constraint failed: ".toList msg.toList = some (t, c) →
      parseSqliteError msg =
        .clientError ("The value for column '" ++ c ++ "' in table '" ++ t ++
          "' already exists and must be unique.") (some msg)) := by
  constructor
  · unfold parseSqliteError
    repeat' split
    all_goals rfl
  · intro t c h
    unfold parseSqliteError
    rw [h]

theorem parseSqliteError_unique_precedence_and_raw_witness :
    (parseSqliteError "UNIQUE constraint failed: users.email").raw =
      some "UNIQUE constraint failed: users.email" ∧
    parseSqliteError "UNIQUE constraint failed: users.email" =
      .clientError ("The value for column 'email' in table 'users'" ++
        " already exists and must be unique.")
        (some "UNIQUE constraint failed: users.email") := by
  refine ⟨(parseSqliteError_unique_precedence_and_raw _).1, ?_⟩
  have h := (parseSqliteError_unique_precedence_and_raw
      "UNIQUE constraint failed: users.email").2 "users" "email" (by decide)
  simpa using h

/-- C6: a filter whose operator is outside the whitelist makes
`rawGetData` fail with the invalid-operator `ClientError` before any SQL
statement is produced, so no SQL containing a non-whitelisted operator
is ever handed to the engine. -/
theorem invalid_operator_rejected (t : String) (cols : List String)
    (filters : List SqlFilter) (lim : Option Int) (f : SqlFilter)
    (ht : validString t = true) (hf : f ∈ filters)
    (hop : f.operator ∉ allowedOperators) :
    ∃ op, op ∉ allowedOperators ∧
      buildSelect t cols filters lim =
        .error (.clientError ("Invalid operator '" ++ op ++ "' in filter.") none) := by
  obtain ⟨op, hop', herr⟩ := buildFilters_first_invalid filters f hf hop
  exact ⟨op, hop', by simp [buildSelect, ht, herr]⟩

theorem invalid_operator_rejected_witness :
    ∃ op, op ∉ allowedOperators ∧
      buildSelect "products" ["*"]
          [⟨"id", "DROP TABLE", Value.vInt 1⟩] none =
        .error (.clientError ("Invalid operator '" ++ op ++ "' in filter.") none) :=
  invalid_operator_rejected "products" ["*"]
    [⟨"id", "DROP TABLE", Value.vInt 1⟩] none
    ⟨"id", "DROP TABLE", Value.vInt 1⟩ (by decide)
    (List.mem_singleton.mpr rfl) (by decide)

/-- C7: an `IN` filter with an array value of length n expands to
`column IN (?, …)` with exactly n placeholders and binds exactly the n
array elements in order (the SQL fragment depends only on the array's
length, never its contents); every other whitelisted operator produces
`column <op> ?` with the value bound exactly once. -/
theorem in_filter_expansion (col op : String) (v : Value) :
    (∀ vs, v = .vArr vs →
      buildFilters [⟨col, "IN", v⟩] =
        .ok ([sanitizeIdentifier col ++ " IN (" ++
          String.intercalate ", " (List.replicate vs.length "?") ++ ")"], vs)) ∧
    (op ∈ allowedOperators → op ≠ "IN" →
      buildFilters [⟨col, op, v⟩] =
        .ok ([sanitizeIdentifier col ++ " " ++ op ++ " ?"], [v])) := by
  constructor
  · rintro vs rfl
    have hin : "IN" ∈ allowedOperators := by decide
    simp [buildFilters, hin, filterClause_in_arr, filterValues_in_arr]
  · intro hmem hne
    simp [buildFilters, hmem, filterClause_plain col op v (Or.inl hne),
      filterValues_plain col op v (Or.inl hne)]

theorem in_filter_expansion_witness :
    buildFilters [⟨"id", "IN", Value.vArr [Value.vInt 1, Value.vInt 2, Value.vInt 3]⟩] =
      .ok ([sanitizeIdentifier "id" ++ " IN (" ++
        String.intercalate ", " (List.replicate 3 "?") ++ ")"],
        [Value.vInt 1, Value.vInt 2, Value.vInt 3]) ∧
    buildFilters [⟨"price", "<=", Value.vInt 10⟩] =
      .ok ([sanitizeIdentifier "price" ++ " <= ?"], [Value.vInt 10]) := by
  constructor
  · exact (in_filter_expansion "id" "IN"
      (Value.vArr [Value.vInt 1, Value.vInt 2, Value.vInt 3])).1
      [Value.vInt 1, Value.vInt 2, Value.vInt 3] rfl
  · exact (in_filter_expansion "price" "<=" (Value.vInt 10)).2
      (by decide) (by decide)

/-- C10: an `IN` filter whose value is not an array passes the operator
whitelist and falls into the generic branch, producing `column IN ?`
with the non-array value bound once; the whole select succeeds. -/
theorem in_filter_non_array_single_bind (col : String) (v : Value)
    (h : v.isArr = false) :
    buildFilters [⟨col, "IN", v⟩] =
      .ok ([sanitizeIdentifier col ++ " IN ?"], [v]) ∧
    buildSelect "products" ["*"] [⟨col, "IN", v⟩] none =
      .ok ("SELECT * FROM products WHERE " ++ (sanitizeIdentifier col ++ " IN ?"),
        [v]) := by
  have hcl : filterClause ⟨col, "IN", v⟩ = sanitizeIdentifier col ++ " IN ?" := by
    rw [filterClause_plain col "IN" v (Or.inr h), String.append_assoc,
      String.append_assoc]
    rfl
  have hvl : filterValues ⟨col, "IN", v⟩ = [v] :=
    filterValues_plain col "IN" v (Or.inr h)
  have hin : "IN" ∈ allowedOperators := by decide
  have hbf : buildFilters [⟨col, "IN", v⟩] =
      .ok ([sanitizeIdentifier col ++ " IN ?"], [v]) := by
    simp [buildFilters, hin, hcl, hvl]
  refine ⟨hbf, ?_⟩
  have hv : validString "products" = true := by decide
  simp only [buildSelect, hv, Bool.not_true, Bool.false_eq_true, if_false, hbf,
    String.append_assoc]
  rfl

theorem in_filter_non_array_single_bind_witness :
    buildFilters [⟨"id", "IN", Value.vInt 5⟩] =
      .ok ([sanitizeIdentifier "id" ++ " IN ?"], [Value.vInt 5]) ∧
    buildSelect "products" ["*"] [⟨"id", "IN", Value.vInt 5⟩] none =
      .ok ("SELECT * FROM products WHERE " ++ (sanitizeIdentifier "id" ++ " IN ?"),
        [Value.vInt 5]) :=
  in_filter_non_array_single_bind "id" (Value.vInt 5) rfl

lemma filterClause_starts_sanitized (f : SqlFilter) :
    ∃ suffix, filterClause f = sanitizeIdentifier f.column ++ suffix := by
  rcases f with ⟨c, op, v⟩
  unfold filterClause
  dsimp only
  split
  · exact ⟨" IN (" ++
      (String.intercalate ", " (List.map (fun _ => "?") _) ++ ")"),
      by rw [String.append_assoc, String.append_assoc]⟩
  · exact ⟨" " ++ (op ++ " ?"), by rw [String.append_assoc, String.append_assoc]⟩

lemma filterClause_shape (f g : SqlFilter) (hc : f.column = g.column)
    (ho : f.operator = g.operator) (ha : f.value.isArr = g.value.isArr)
    (hl : ∀ vs ws, f.value = .vArr vs → g.value = .vArr ws →
      vs.length = ws.length) :
    filterClause f = filterClause g := by
  rcases f with ⟨c, op, v⟩
  rcases g with ⟨c', op', w⟩
  dsimp only at hc ho ha hl
  subst hc; subst ho
  by_cases hop : op = "IN"
  · subst hop
    match v, w, ha with
    | .vArr vs, .vArr ws, _ =>
      rw [filterClause_in_arr, filterClause_in_arr, hl vs ws rfl rfl]
    | .vArr vs, .vNull, ha | .vArr vs, .vInt _, ha | .vArr vs, .vStr _, ha
    | .vArr vs, .vBool _, ha => exact absurd ha (by simp [Value.isArr])
    | .vNull, .vArr ws, ha | .vInt _, .vArr ws, ha | .vStr _, .vArr ws, ha
    | .vBool _, .vArr ws, ha => exact absurd ha (by simp [Value.isArr])
    | .vNull, .vNull, _ | .vNull, .vInt _, _ | .vNull, .vStr _, _
    | .vNull, .vBool _, _ | .vInt _, .vNull, _ | .vInt _, .vInt _, _
    | .vInt _, .vStr _, _ | .vInt _, .vBool _, _ | .vStr _, .vNull, _
    | .vStr _, .vInt _, _ | .vStr _, .vStr _, _ | .vStr _, .vBool _, _
    | .vBool _, .vNull, _ | .vBool _, .vInt _, _ | .vBool _, .vStr _, _
    | .vBool _, .vBool _, _ => rfl
  · rw [filterClause_plain c op v (Or.inl hop),
      filterClause_plain c op w (Or.inl hop)]

lemma buildFilters_ok :
    ∀ (filters : List SqlFilter) (cs : List String) (vs : List Value),
      buildFilters filters = .ok (cs, vs) →
      cs = filters.map filterClause ∧ vs = (filters.map filterValues).flatten
  | [], cs, vs, h => by
    simp only [buildFilters, Except.ok.injEq, Prod.mk.injEq] at h
    simp [← h.1, ← h.2]
  | f :: rest, cs, vs, h => by
    by_cases hg : f.operator ∈ allowedOperators
    · rcases hrec : buildFilters rest with e | ⟨cs', vs'⟩
      · simp [buildFilters, hg, hrec] at h
      · obtain ⟨hc, hv⟩ := buildFilters_ok rest cs' vs' hrec
        simp only [buildFilters, hg, if_true, hrec, Except.ok.injEq,
          Prod.mk.injEq] at h
        simp [← h.1, ← h.2, hc, hv]
    · simp [buildFilters, hg] at h

/-- C2 counterexample: the table name does not pass through
`sanitizeIdentifier`. A table name containing a double quote is
interpolated into the SELECT text verbatim, while the sanitizer would
have stripped the quote and wrapped the name. -/
theorem table_name_not_sanitized_cex :
    buildSelect "x\"y" ["*"] [] none = .ok ("SELECT * FROM x\"y", []) ∧
    sanitizeIdentifier "x\"y" = "\"xy\"" ∧
    "SELECT * FROM x\"y" ≠ "SELECT * FROM " ++ sanitizeIdentifier "x\"y" := by
  refine ⟨rfl, rfl, by decide⟩

/-- C2 (amended): in `rawGetData` every filter's WHERE fragment starts
with the sanitized column name and depends only on the filter's column,
operator and array length — never on the bound values, which are
collected verbatim as the parameter list; `rawInsertData`,
`rawUpdateData`, `rawToggleColumn` and `rawDeleteById` likewise bind
every data value as a `?` parameter, but interpolate the table name —
and, for insert and update, the column names — into the SQL text
without passing them through `sanitizeIdentifier`. -/
theorem builders_value_binding_and_sanitization :
    (∀ (filters : List SqlFilter) (cs : List String) (vs : List Value),
      buildFilters filters = .ok (cs, vs) →
      cs = filters.map filterClause ∧ vs = (filters.map filterValues).flatten) ∧
    (∀ f : SqlFilter, ∃ suffix,
      filterClause f = sanitizeIdentifier f.column ++ suffix) ∧
    (∀ f g : SqlFilter, f.column = g.column → f.operator = g.operator →
      f.value.isArr = g.value.isArr →
      (∀ vs ws, f.value = .vArr vs → g.value = .vArr ws →
        vs.length = ws.length) →
      filterClause f = filterClause g) ∧
    (∀ (t : String) (data : List (String × Value)) (sql : String)
        (vals : List Value), buildInsert t data = .ok (sql, vals) →
      vals = data.map Prod.snd ∧
      sql = "INSERT INTO " ++ t ++ " (" ++
        String.intercalate ", " (data.map Prod.fst) ++ ") VALUES (" ++
        String.intercalate ", " (List.replicate data.length "?") ++ ")") ∧
    (∀ (t : String) (id : Value) (data : List (String × Value)) (sql : String)
        (vals : List Value), buildUpdate t id data = .ok (sql, vals) →
      vals = data.map Prod.snd ++ [id] ∧
      sql = "UPDATE " ++ t ++ " SET " ++
        String.intercalate ", " ((data.map Prod.fst).map (fun k => k ++ " = ?")) ++
        " WHERE id = ?") ∧
    (∀ (t : String) (id : Value) (c : String) (sql : String)
        (vals : List Value), buildToggle t id c = .ok (sql, vals) →
      vals = [id] ∧
      sql = "\n    UPDATE " ++ t ++ "\n    SET " ++ sanitizeIdentifier c ++
        " = CASE " ++ sanitizeIdentifier c ++
        " WHEN 1 THEN 0 ELSE 1 END\n    WHERE id = ?\n  ") ∧
    (∀ (t : String) (id : Value) (sql : String) (vals : List Value),
      buildDelete t id = .ok (sql, vals) →
      vals = [id] ∧ sql = "DELETE FROM " ++ t ++ " WHERE id = ?") ∧
    (∀ (t : String) (cols : List String) (filters : List SqlFilter)
        (lim : Option Int) (sql : String) (vals : List Value),
      buildSelect t cols filters lim = .ok (sql, vals) →
      ∃ cs, buildFilters filters = .ok (cs, vals) ∧
        sql =
          (let base := "SELECT " ++ String.intercalate ", "
              ((if cols.isEmpty then ["*"] else cols).map sanitizeIdentifier) ++
              " FROM " ++ t
           let withWhere :=
             if cs.isEmpty then base
             else base ++ " WHERE " ++ String.intercalate " AND " cs
           match lim with
           | some l =>
             if l > 0 then withWhere ++ " LIMIT " ++ toString l else withWhere
           | none => withWhere)) := by
  refine ⟨buildFilters_ok, filterClause_starts_sanitized, filterClause_shape,
    ?_, ?_, ?_, ?_, ?_⟩
  · intro t data sql vals h
    unfold buildInsert at h
    dsimp only at h
    split at h
    · exact Except.noConfusion h
    · rw [Except.ok.injEq, Prod.mk.injEq] at h
      refine ⟨h.2.symm, ?_⟩
      rw [← h.1, map_const_q]
      simp
  · intro t id data sql vals h
    unfold buildUpdate at h
    dsimp only at h
    split at h
    · exact Except.noConfusion h
    · split at h
      · exact Except.noConfusion h
      · rw [Except.ok.injEq, Prod.mk.injEq] at h
        exact ⟨h.2.symm, h.1.symm⟩
  · intro t id c sql vals h
    unfold buildToggle at h
    split at h
    · exact Except.noConfusion h
    · split at h
      · exact Except.noConfusion h
      · rw [Except.ok.injEq, Prod.mk.injEq] at h
        exact ⟨h.2.symm, h.1.symm⟩
  · intro t id sql vals h
    unfold buildDelete at h
    split at h
    · exact Except.noConfusion h
    · rw [Except.ok.injEq, Prod.mk.injEq] at h
      exact ⟨h.2.symm, h.1.symm⟩
  · intro t cols filters lim sql vals h
    unfold buildSelect at h
    split at h
    · exact Except.noConfusion h
    · rcases hbf : buildFilters filters with e | ⟨cs, vs⟩
      · rw [hbf] at h
        exact Except.noConfusion h
      · rw [hbf] at h
        dsimp only at h
        rw [Except.ok.injEq, Prod.mk.injEq] at h
        refine ⟨cs, ?_, h.1.symm⟩
        first
        | rw [hbf, h.2]
        | rw [h.2]

theorem builders_value_binding_and_sanitization_witness :
    (["\"id\" = ?"] =
        ([⟨"id", "=", Value.vInt 7⟩] : List SqlFilter).map filterClause ∧
      [Value.vInt 7] =
        (([⟨"id", "=", Value.vInt 7⟩] : List SqlFilter).map
          filterValues).flatten) ∧
    ([Value.vStr "a"] =
        ([("name", Value.vStr "a")] : List (String × Value)).map Prod.snd ∧
      "INSERT INTO users (name) VALUES (?)" =
        "INSERT INTO " ++ "users" ++ " (" ++
          String.intercalate ", "
            (([("name", Value.vStr "a")] : List (String × Value)).map Prod.fst) ++
          ") VALUES (" ++
          String.intercalate ", "
            (List.replicate
              ([("name", Value.vStr "a")] : List (String × Value)).length "?") ++
          ")") :=
  ⟨builders_value_binding_and_sanitization.1
      [⟨"id", "=", Value.vInt 7⟩] ["\"id\" = ?"] [Value.vInt 7] rfl,
    builders_value_binding_and_sanitization.2.2.2.1
      "users" [("name", Value.vStr "a")]
      "INSERT INTO users (name) VALUES (?)" [Value.vStr "a"] rfl⟩

lemma foldl_applyMut (σ : Type) :
    ∀ (muts : List (σ → σ)) (p t : σ),
      ∃ t', muts.foldl (fun s f => applyMut f s) ⟨p, some t⟩ = ⟨p, some t'⟩
  | [], _, t => ⟨t, rfl⟩
  | f :: rest, p, t => by
    have h := foldl_applyMut σ rest p (f t)
    simpa [applyMut] using h

/-- C1: whenever a connection was opened and BEGIN TRANSACTION issued
(the open succeeded), a ROLLBACK is issued before the wrapper returns on
the success path and on every failure path, and consequently the
persisted store after a wrapped call equals the persisted store before
it — no mutation performed through this layer is durable. -/
theorem withSimulatedTransaction_always_rolls_back {α : Type}
    (env : TxEnv) (fnRes : Except JsErr α) (h : env.openErr = none) :
    DbCmd.rollback ∈ (runSimulated env fnRes).trace ∧
    ∀ (σ : Type) (muts : List (σ → σ)) (s0 : σ),
      (runSimulatedState muts s0).persisted = s0 := by
  constructor
  · rcases env with ⟨o, b, r⟩
    dsimp only at h
    subst h
    unfold runSimulated
    cases b with
    | some m => cases hr : r 0 <;> simp [hr]
    | none =>
      cases fnRes with
      | ok a =>
        cases hr : r 0 with
        | none => simp [hr]
        | some m => cases hr1 : r 1 <;> simp [hr, hr1]
      | error e => cases hr : r 0 <;> simp [hr]
  · intro σ muts s0
    unfold runSimulatedState
    obtain ⟨t', ht⟩ := foldl_applyMut σ muts s0 s0
    rw [show doBegin (⟨s0, none⟩ : DbState σ) = (⟨s0, some s0⟩ : DbState σ)
      from rfl, ht]
    rfl

theorem withSimulatedTransaction_always_rolls_back_witness :
    DbCmd.rollback ∈
      (runSimulated ⟨none, none, fun _ => none⟩ (Except.ok (0 : Nat))).trace ∧
    (runSimulatedState [fun n => n + 1] (0 : Nat)).persisted = 0 :=
  ⟨(withSimulatedTransaction_always_rolls_back
      (⟨none, none, fun _ => none⟩ : TxEnv) (Except.ok (0 : Nat)) rfl).1,
    (withSimulatedTransaction_always_rolls_back
      (⟨none, none, fun _ => none⟩ : TxEnv) (Except.ok (0 : Nat)) rfl).2
      Nat [fun n => n + 1] 0⟩

/-- C3: when the ROLLBACK statement itself fails, the wrapper does NOT
return the failure classified through `parseSqliteError` — the
decorators module never imports that function, so evaluating it raises
`ReferenceError: parseSqliteError is not defined`, which is what escapes
to the caller (here: both rollback attempts after a successful unit of
work fail, and the raised error is the unclassified `ReferenceError`,
which is not a `ClientError` and differs from the classifier's output on
that engine message). -/
theorem rollback_failure_unclassified :
    (runSimulated
        ⟨none, none,
          fun _ => some "SQLITE_ERROR: cannot rollback - no transaction is active"⟩
        (Except.ok (0 : Nat))).result =
      .error (.refError "parseSqliteError") ∧
    (JsErr.refError "parseSqliteError").isClientError = false ∧
    JsErr.refError "parseSqliteError" ≠
      parseSqliteError "SQLITE_ERROR: cannot rollback - no transaction is active" :=
  ⟨rfl, rfl, by decide⟩

/-- C8: an error raised by the unit of work propagates unchanged when it
is a `ClientError` and is otherwise wrapped into a `ServerError` whose
raw diagnostic is the original error's message (given that the rollback
in the catch block succeeds); and every error produced by the classifier
`parseSqliteError` is a `ClientError`, hence propagates unchanged. -/
theorem unit_of_work_error_propagation (env : TxEnv) (e : JsErr)
    (h1 : env.openErr = none) (h2 : env.beginErr = none)
    (h3 : env.rbErr 0 = none) :
    (runSimulated env (Except.error e : Except JsErr Unit)).result =
      (if e.isClientError then Except.error e
       else Except.error
         (.serverError "Internal server error" (some e.message))) ∧
    ∀ msg, (parseSqliteError msg).isClientError = true := by
  constructor
  · rcases env with ⟨o, b, r⟩
    dsimp only at h1 h2 h3
    subst h1; subst h2
    unfold runSimulated
    simp [h3, handleCaught]
  · intro msg
    unfold parseSqliteError
    repeat' split
    all_goals rfl

theorem unit_of_work_error_propagation_witness :
    (runSimulated ⟨none, none, fun _ => none⟩
        (Except.error (JsErr.clientError "No data to update" none) :
          Except JsErr Unit)).result =
      Except.error (JsErr.clientError "No data to update" none) ∧
    (parseSqliteError "boom").isClientError = true :=
  ⟨(unit_of_work_error_propagation ⟨none, none, fun _ => none⟩
      (JsErr.clientError "No data to update" none) rfl rfl rfl).1,
    (unit_of_work_error_propagation ⟨none, none, fun _ => none⟩
      (JsErr.clientError "No data to update" none) rfl rfl rfl).2 "boom"⟩

/-- C5: an UPDATE affecting zero rows makes `updateData` fail with
`ClientError("Element not found or nothing changed")` without attempting
the re-read, and `toggleBooleanField` applies the same zero-change
policy, failing with a `ClientError` instead of returning success. -/
theorem zero_change_update_toggle_fail {ρ : Type} (changes : Nat)
    (rows rows' : List ρ) (h : changes = 0) :
    updateDataBody changes rows =
      (.error (.clientError "Element not found or nothing changed" none),
        false) ∧
    toggleBooleanFieldBody changes rows' =
      (.error (.clientError "Record not found or no change applied" none),
        false) := by
  subst h
  exact ⟨rfl, rfl⟩

theorem zero_change_update_toggle_fail_witness :
    updateDataBody 0 ([] : List Unit) =
      (.error (.clientError "Element not found or nothing changed" none),
        false) ∧
    toggleBooleanFieldBody 0 ([] : List Unit) =
      (.error (.clientError "Record not found or no change applied" none),
        false) :=
  zero_change_update_toggle_fail 0 [] [] rfl

lemma createPurchaseLoop_spec (products : List Product) :
    ∀ (lines : List PurchaseLine) (t0 : ℚ) (acc : List PurchaseItemOut)
      (total : ℚ) (outs : List PurchaseItemOut),
      createPurchaseLoop products lines t0 acc = some (total, outs) →
      ∃ items, outs = acc ++ items ∧
        items.map PurchaseItemOut.product_id =
          lines.map PurchaseLine.product_id ∧
        items.map PurchaseItemOut.quantity = lines.map PurchaseLine.quantity ∧
        (∀ o ∈ items, ∃ p,
          products.find? (fun q => q.id == o.product_id) = some p ∧
          o.price_at_time = p.price) ∧
        total =
          round2 (t0 + (items.map (fun o => o.price_at_time * o.quantity)).sum)
  | [], t0, acc, total, outs, h => by
    simp only [createPurchaseLoop, Option.some.injEq, Prod.mk.injEq] at h
    exact ⟨[], by simp [← h.2], rfl, rfl, by simp, by simp [← h.1]⟩
  | l :: rest, t0, acc, total, outs, h => by
    rw [createPurchaseLoop] at h
    rcases hf : products.find? (fun p => p.id == l.product_id) with _ | pd
    · rw [hf] at h
      exact Option.noConfusion h
    · rw [hf] at h
      obtain ⟨items, hout, hpid, hqty, hfind, htot⟩ :=
        createPurchaseLoop_spec products rest (t0 + pd.price * l.quantity)
          (acc ++ [⟨l.product_id, l.quantity, pd.price⟩]) total outs h
      refine ⟨⟨l.product_id, l.quantity, pd.price⟩ :: items, ?_, ?_, ?_, ?_, ?_⟩
      · simpa [List.append_assoc] using hout
      · simpa using hpid
      · simpa using hqty
      · intro o ho
        rcases List.mem_cons.mp ho with rfl | ho'
        · exact ⟨pd, by simpa using hf, rfl⟩
        · exact hfind o ho'
      · rw [htot]
        congr 1
        simp only [List.map_cons, List.sum_cons]
        ring

/-- C9: `createPurchase` snapshots each line item's `price_at_time` from
the referenced product's current price and the inserted purchase's total
is the sum over all line items of `price_at_time × quantity`, rounded to
two decimals (numbers idealised as exact rationals); in particular with
one product of price 9.99 and quantity 2 the total is 19.98 and the
single item carries `price_at_time` 9.99. -/
theorem createPurchase_total_and_snapshot (products : List Product)
    (lines : List PurchaseLine) (total : ℚ) (outs : List PurchaseItemOut)
    (h : createPurchaseCore products lines = some (total, outs)) :
    total = round2 ((outs.map (fun o => o.price_at_time * o.quantity)).sum) ∧
    outs.map PurchaseItemOut.product_id = lines.map PurchaseLine.product_id ∧
    outs.map PurchaseItemOut.quantity = lines.map PurchaseLine.quantity ∧
    ∀ o ∈ outs, ∃ p,
      products.find? (fun q => q.id == o.product_id) = some p ∧
      o.price_at_time = p.price := by
  obtain ⟨items, hout, hpid, hqty, hfind, htot⟩ :=
    createPurchaseLoop_spec products lines 0 [] total outs h
  rw [List.nil_append] at hout
  subst hout
  exact ⟨by simpa using htot, hpid, hqty, hfind⟩

theorem createPurchase_total_and_snapshot_witness :
    createPurchaseCore [⟨3, 999 / 100⟩] [⟨3, 2⟩] =
      some (1998 / 100, [⟨3, 2, 999 / 100⟩]) ∧
    (1998 / 100 : ℚ) =
      round2 ((([⟨3, 2, 999 / 100⟩] : List PurchaseItemOut).map
        (fun o => o.price_at_time * o.quantity)).sum) :=
  have hcore : createPurchaseCore [⟨3, 999 / 100⟩] [⟨3, 2⟩] =
      some (1998 / 100, [⟨3, 2, 999 / 100⟩]) := by
    norm_num [createPurchaseCore, createPurchaseLoop, round2]
  ⟨hcore, (createPurchase_total_and_snapshot _ _ _ _ hcore).1⟩
